import Mathlib

/-!
Shallow embedding of the aggregation core of the counsellor-analytics service
(`src/app/api/v1/endpoints/counsellor_analytics.py`) over a relational snapshot,
together with proofs and refutations of the specification's claims about it.

Conventions of the embedding:
* UUID primary keys become `Nat`; timestamps become `Int` at day granularity
  (every SQL comparison in the embedded code compares a timestamp against the
  midnight of a date, and every grouping casts the timestamp to a date, so day
  granularity is exact for the embedded queries).
* SQL `SUM(CASE WHEN p THEN 1 ELSE 0)` becomes `List.countP`; `COUNT(DISTINCT …)`
  becomes `List.dedup.length`; a join on a primary key becomes `List.find?` /
  `List.any` (primary keys are unique, so the join multiplicity is one).
* `round(x, 1)` becomes `round1` over `ℚ`.
-/

namespace B2b

/-- Risk levels of `app/models/student.py` (`RiskLevel`). -/
inductive RiskLevel where
  | LOW
  | MEDIUM
  | HIGH
  | CRITICAL
deriving DecidableEq, Repr

/-- Submission statuses of `app/models/activity_submission.py` (`SubmissionStatus`). -/
inductive SubmissionStatus where
  | PENDING
  | SUBMITTED
  | VERIFIED
  | REJECTED
deriving DecidableEq, Repr

/-- A row of `b2b_students` (`app/models/student.py`), restricted to the columns the
embedded endpoints read. -/
structure Student where
  student_id : Nat
  school_id : Nat
  class_id : Option Nat
  risk_level : Option RiskLevel
  first_name : String
  last_name : String
deriving DecidableEq, Repr

/-- A row of `b2b_classes` (`app/models/class_model.py`), restricted to the columns the
embedded endpoints read. -/
structure SchoolClass where
  class_id : Nat
  school_id : Nat
  name : String
  grade : String
  teacher_id : Option Nat
deriving DecidableEq, Repr

/-- A row of `b2b_users` (`app/models/user.py`), restricted to the columns the embedded
endpoints read (teacher display names for the ILIKE search). -/
structure User where
  user_id : Nat
  display_name : String
deriving DecidableEq, Repr

/-- A row of `b2b_assessments` (`app/models/assessment.py`). -/
structure Assessment where
  assessment_id : Nat
  school_id : Nat
  class_id : Option Nat
deriving DecidableEq, Repr

/-- A row of `b2b_student_responses` (`app/models/assessment.py`). -/
structure StudentResponse where
  response_id : Nat
  assessment_id : Nat
  student_id : Nat
  score : Option ℚ
  completed_at : Option Int
deriving DecidableEq, Repr

/-- A row of `b2b_activity_assignments` (`app/models/activity_assignment.py`);
`class_id` is `nullable=False` there. -/
structure ActivityAssignment where
  assignment_id : Nat
  activity_id : Nat
  class_id : Nat
deriving DecidableEq, Repr

/-- A row of `b2b_activity_submissions` (`app/models/activity_submission.py`). -/
structure ActivitySubmission where
  submission_id : Nat
  assignment_id : Nat
  student_id : Nat
  status : SubmissionStatus
  submitted_at : Option Int
  created_at : Int
deriving DecidableEq, Repr

/-- Modelled from the spec: the `Activity` row of the activity engine
(`app/models/activity.py` is not in the source tree); the embedded endpoints only
test existence by `activity_id`. -/
structure Activity where
  activity_id : Nat
deriving DecidableEq, Repr

/-- Modelled from the spec: a `Webinar` row (`app/models/webinar.py` is not in the
source tree); the embedded endpoints read its id and scheduled date. -/
structure Webinar where
  webinar_id : Nat
  date : Option Int
deriving DecidableEq, Repr

/-- Modelled from the spec: a `WebinarSchoolRegistration` row (`app/models/webinar.py`
is not in the source tree): "a registration scopes a webinar to a school and
optionally a subset of class ids (empty/absent class-id list = school-wide)". -/
structure WebinarSchoolRegistration where
  id : Nat
  webinar_id : Nat
  school_id : Nat
  class_ids : Option (List Nat)
deriving DecidableEq, Repr

/-- Modelled from the spec: a `StudentWebinarAttendance` row
(`app/models/student_engagement.py` is not in the source tree): "Attendance is a
(student, webinar) record with a boolean attended flag". -/
structure StudentWebinarAttendance where
  id : Nat
  student_id : Nat
  webinar_id : Nat
  attended : Bool
  created_at : Int
deriving DecidableEq, Repr

/-- A read-only snapshot of the collaborator data store, as seen by one request.
`schools` holds the ids of `b2b_schools` rows (`app/models/school.py` is not in the
source tree; the endpoints only test existence by `school_id`). -/
structure Db where
  schools : List Nat
  classes : List SchoolClass
  users : List User
  students : List Student
  assessments : List Assessment
  responses : List StudentResponse
  assignments : List ActivityAssignment
  submissions : List ActivitySubmission
  activities : List Activity
  webinars : List Webinar
  webinar_regs : List WebinarSchoolRegistration
  attendances : List StudentWebinarAttendance
deriving DecidableEq, Repr

/-- Errors raised through `HTTPException` by the endpoints. -/
inductive ApiError where
  | notFound (detail : String)
  | badRequest (detail : String)
deriving DecidableEq, Repr

/-- Rounding to the nearest integer on `ℚ`, written on the numerator/denominator
representation so that it evaluates by kernel reduction; proved equal to Mathlib's
`round` below. -/
def ratRound (q : ℚ) : ℤ := (2 * q.num + q.den) / (2 * (q.den : ℤ))

/-- Python's `round(x, 1)` on the exact rational value. (Python rounds float ties
to even; the embedding works on exact rationals and rounds ties up. No claim below
depends on a tie.) -/
def round1 (q : ℚ) : ℚ := ((ratRound (10 * q) : ℤ) : ℚ) / 10

/-- The completion-rate formula used throughout the per-class analytics:
`round(done / total * 100, 1) if total > 0 else 0`. -/
def rate_of (done total : Nat) : ℚ :=
  if 0 < total then round1 ((done : ℚ) / (total : ℚ) * 100) else 0

/-- Lowercasing, for Python's `str.lower()` and SQL `ILIKE` (written on the
character list so that it evaluates by kernel reduction). -/
def lowerStr (s : String) : String := String.mk (s.data.map Char.toLower)

/-- Uppercasing, for Python's `str.upper()`. -/
def upperStr (s : String) : String := String.mk (s.data.map Char.toUpper)

/-- `p` is a prefix of `l`, on characters. -/
def charsStartWith : List Char → List Char → Bool
  | [], _ => true
  | _ :: _, [] => false
  | p :: ps, c :: cs => p == c && charsStartWith ps cs

/-- `pat` occurs as a contiguous run inside `hay`, on characters. -/
def charsContain (hay pat : List Char) : Bool :=
  match hay with
  | [] => pat.isEmpty
  | _ :: rest => charsStartWith pat hay || charsContain rest pat

/-- SQL `col ILIKE '%pat%'`: case-insensitive substring match. -/
def ilikeContains (col pat : String) : Bool :=
  charsContain (lowerStr col).toList (lowerStr pat).toList

/-- The `.value.lower()` of a `RiskLevel` enum member. -/
def riskValueLower : RiskLevel → String
  | .LOW => "low"
  | .MEDIUM => "medium"
  | .HIGH => "high"
  | .CRITICAL => "critical"

/-- The students of one school (`Student.school_id == school_id`). -/
def schoolStudents (db : Db) (school_id : Nat) : List Student :=
  db.students.filter (fun s => s.school_id == school_id)

/-- The students of one class (`Student.class_id == class_id`). -/
def classStudents (db : Db) (class_id : Nat) : List Student :=
  db.students.filter (fun s => s.class_id == some class_id)

/-- A `{low, medium, high}` risk-distribution value. -/
structure RiskDistribution where
  low : Nat
  medium : Nat
  high : Nat
deriving DecidableEq, Repr

/-- The single grouped student-stats query of `get_school_overview`: total count and
the three `SUM(CASE …)` risk buckets (`HIGH` and `CRITICAL` merged into `high`; a
`NULL` `risk_level` matches none of the `CASE` conditions). -/
def overviewRiskDistribution (db : Db) (school_id : Nat) : RiskDistribution :=
  let sts := schoolStudents db school_id
  { low := sts.countP (fun s => s.risk_level == some RiskLevel.LOW)
    medium := sts.countP (fun s => s.risk_level == some RiskLevel.MEDIUM)
    high := sts.countP (fun s =>
      s.risk_level == some RiskLevel.HIGH || s.risk_level == some RiskLevel.CRITICAL) }

/-- The fields of the `get_school_overview` response that the claims are about. -/
structure OverviewSummary where
  total_students : Nat
  total_classes : Nat
  risk_distribution : RiskDistribution
deriving DecidableEq, Repr

/-- Shallow embedding of `get_school_overview`: the NotFound guard on the school, the
student-count/risk-distribution aggregate, the class count, and the empty-cohort
early return (which answers all-zero). Engagement, top-performer and at-risk fields
of the response are not claim-relevant and are not embedded. -/
def get_school_overview (db : Db) (school_id : Nat) : Except ApiError OverviewSummary :=
  if db.schools.contains school_id then
    let sts := schoolStudents db school_id
    if sts.isEmpty then
      Except.ok { total_students := 0, total_classes := 0
                  risk_distribution := { low := 0, medium := 0, high := 0 } }
    else
      Except.ok
        { total_students := sts.length
          total_classes := (db.classes.filter (fun c => c.school_id == school_id)).length
          risk_distribution := overviewRiskDistribution db school_id }
  else
    Except.error (ApiError.notFound "School not found")

/-- The loop body of the Python risk-bucket loop of `get_class_analytics`
(single-class endpoint, lines 417-425): `risk_level.value.lower() if risk_level
else "low"`, then `high/critical → high`, `medium → medium`, anything else → `low`. -/
def classRiskStep (dist : RiskDistribution) (s : Student) : RiskDistribution :=
  let risk := match s.risk_level with
    | some r => riskValueLower r
    | none => "low"
  if risk == "high" || risk == "critical" then { dist with high := dist.high + 1 }
  else if risk == "medium" then { dist with medium := dist.medium + 1 }
  else { dist with low := dist.low + 1 }

/-- The Python risk-bucket loop of `get_class_analytics` over the class roster. -/
def classRiskDistribution (db : Db) (class_id : Nat) : RiskDistribution :=
  (classStudents db class_id).foldl classRiskStep { low := 0, medium := 0, high := 0 }

/-- A `{rate, done, total}` triple of the per-class analytics response. -/
structure DoneTotal where
  rate : ℚ
  done : Nat
  total : Nat
deriving DecidableEq, Repr

/-- One element of the `classes` array of `get_classes_analytics`, restricted to the
claim-relevant fields. -/
structure ClassAnalyticsEntry where
  class_id : Nat
  total_students : Nat
  assessments : DoneTotal
  activities : DoneTotal
  webinars : DoneTotal
  risk_distribution : RiskDistribution
deriving DecidableEq, Repr

/-- The ILIKE search condition of `get_classes_analytics`: class name or the
outer-joined teacher's display name contains the pattern (a missing teacher gives
SQL `NULL ILIKE …`, which is not true). -/
def classSearchMatch (db : Db) (c : SchoolClass) (pat : String) : Bool :=
  ilikeContains c.name pat ||
    (match c.teacher_id.bind (fun tid => db.users.find? (fun u => u.user_id == tid)) with
     | some u => ilikeContains u.display_name pat
     | none => false)

/-- The class-selection query of `get_classes_analytics`: school filter, then the
optional teacher, grade and search filters. -/
def selectClasses (db : Db) (school_id : Nat) (teacher_id : Option Nat)
    (search : Option String) (grade : Option String) : List SchoolClass :=
  let q := db.classes.filter (fun c => c.school_id == school_id)
  let q := match teacher_id with
    | some t => q.filter (fun c => c.teacher_id == some t)
    | none => q
  let q := match grade with
    | some g => q.filter (fun c => c.grade == g)
    | none => q
  match search with
  | some pat => q.filter (fun c => classSearchMatch db c pat)
  | none => q

/-- `get_classes_analytics` batch query 1 for assessments: count of school-wide
assessments (`school_id` matches, `class_id IS NULL`). -/
def school_assessments_count (db : Db) (school_id : Nat) : Nat :=
  (db.assessments.filter (fun a => a.school_id == school_id && a.class_id == none)).length

/-- `get_classes_analytics` batch query 2 for assessments: count of class-specific
assessments of one class. -/
def class_assessment_count (db : Db) (class_id : Nat) : Nat :=
  (db.assessments.filter (fun a => a.class_id == some class_id)).length

/-- `get_classes_analytics` batch query 3 for assessments (`assessment_done_map`):
the number of distinct `(student_id, assessment_id)` pairs among completed responses
of students currently in the class. -/
def assessment_done (db : Db) (class_id : Nat) : Nat :=
  (((classStudents db class_id).flatMap (fun s =>
      (db.responses.filter (fun r =>
          r.student_id == s.student_id && r.completed_at.isSome)).map
        (fun r => (r.student_id, r.assessment_id)))).dedup).length

/-- `get_classes_analytics` assigned-activities query (`activity_assigned_counts`):
distinct activity ids assigned to the class. -/
def activity_assigned_count (db : Db) (class_id : Nat) : Nat :=
  ((db.assignments.filter (fun a => a.class_id == class_id)).map
    (fun a => a.activity_id)).dedup.length

/-- `get_classes_analytics` completed-activities query (`activity_done_map`): count
of SUBMITTED/VERIFIED submissions of students currently in the class. -/
def activity_done (db : Db) (class_id : Nat) : Nat :=
  ((classStudents db class_id).map (fun s =>
    (db.submissions.filter (fun sub => sub.student_id == s.student_id &&
      (sub.status == SubmissionStatus.SUBMITTED ||
       sub.status == SubmissionStatus.VERIFIED))).length)).sum

/-- `get_classes_analytics` webinar-total query (`school_webinars_count`): count of
webinar registrations of the school. -/
def school_webinars_count (db : Db) (school_id : Nat) : Nat :=
  (db.webinar_regs.filter (fun r => r.school_id == school_id)).length

/-- `get_classes_analytics` webinar-attendance query (`webinar_done_map`): count of
`attended = True` attendance rows of students currently in the class. -/
def webinar_done (db : Db) (class_id : Nat) : Nat :=
  ((classStudents db class_id).map (fun s =>
    (db.attendances.filter (fun a => a.student_id == s.student_id && a.attended)).length)).sum

/-- The per-class response-building loop body of `get_classes_analytics`
(lines 307-356): per-student totals are multiplied by the student count, webinar
`done` is clamped by `min(done, total)` only when `total > 0`, and each rate is
`round(done / total * 100, 1) if total > 0 else 0`. -/
def classEntry (db : Db) (school_id : Nat) (c : SchoolClass) : ClassAnalyticsEntry :=
  let sts := classStudents db c.class_id
  let student_count := sts.length
  let ass_total := (school_assessments_count db school_id + class_assessment_count db c.class_id) * student_count
  let ass_done := assessment_done db c.class_id
  let act_total := activity_assigned_count db c.class_id * student_count
  let act_done := activity_done db c.class_id
  let web_total := school_webinars_count db school_id * student_count
  let web_done0 := webinar_done db c.class_id
  let web_done := if 0 < web_total then min web_done0 web_total else web_done0
  { class_id := c.class_id
    total_students := student_count
    assessments := { rate := rate_of ass_done ass_total, done := ass_done, total := ass_total }
    activities := { rate := rate_of act_done act_total, done := act_done, total := act_total }
    webinars := { rate := rate_of web_done web_total, done := web_done, total := web_total }
    risk_distribution :=
      { low := sts.countP (fun s => s.risk_level == some RiskLevel.LOW)
        medium := sts.countP (fun s => s.risk_level == some RiskLevel.MEDIUM)
        high := sts.countP (fun s =>
          s.risk_level == some RiskLevel.HIGH || s.risk_level == some RiskLevel.CRITICAL) } }

/-- Shallow embedding of `get_classes_analytics`: the selected classes mapped through
the per-class metric computation. (The `days` query parameter is accepted by the
endpoint but unused by every query in it, so it is not a parameter here.) -/
def get_classes_analytics (db : Db) (school_id : Nat) (teacher_id : Option Nat)
    (search : Option String) (grade : Option String) : List ClassAnalyticsEntry :=
  (selectClasses db school_id teacher_id search grade).map (classEntry db school_id)

/-- The full `get_classes_analytics` response, including the empty-cohort early
return (`{"total_classes": 0, "classes": []}`). -/
structure ClassesResp where
  total_classes : Nat
  classes : List ClassAnalyticsEntry
deriving DecidableEq, Repr

/-- `get_classes_analytics` at response level: never raises; an unknown school simply
selects no classes. -/
def get_classes_analytics_resp (db : Db) (school_id : Nat) (teacher_id : Option Nat)
    (search : Option String) (grade : Option String) : ClassesResp :=
  let entries := get_classes_analytics db school_id teacher_id search grade
  if entries.isEmpty then { total_classes := 0, classes := [] }
  else { total_classes := entries.length, classes := entries }

/-- One element of the `trends` array of `get_school_trends`. -/
structure TrendEntry where
  date : Int
  assessments : ℚ
  activities : ℚ
  webinars : ℚ
deriving DecidableEq, Repr

/-- Whether a student's class row has the given teacher (the
`join(Class, Student.class_id == Class.class_id).filter(Class.teacher_id == t)`
inner join; a student with no class joins nothing). -/
def studentTaughtBy (db : Db) (s : Student) (t : Nat) : Bool :=
  match s.class_id with
  | some cid => db.classes.any (fun c => c.class_id == cid && c.teacher_id == some t)
  | none => false

/-- The cohort-id query of `get_school_trends`: all student ids of the school,
optionally restricted to classes of one teacher. -/
def trendStudentIds (db : Db) (school_id : Nat) (teacher_id : Option Nat) : List Nat :=
  match teacher_id with
  | none => (schoolStudents db school_id).map (fun s => s.student_id)
  | some t => ((schoolStudents db school_id).filter (fun s => studentTaughtBy db s t)).map
      (fun s => s.student_id)

/-- The assessment rows feeding the trend query: completed responses of cohort
students on or after the window start. -/
def assessmentTrendRows (db : Db) (sids : List Nat) (startD : Int) : List StudentResponse :=
  db.responses.filter (fun r => sids.contains r.student_id &&
    (match r.completed_at with
     | some d => decide (startD ≤ d)
     | none => false))

/-- The dates appearing in the grouped assessment trend query. -/
def assessmentTrendDates (db : Db) (sids : List Nat) (startD : Int) : List Int :=
  ((assessmentTrendRows db sids startD).filterMap (fun r => r.completed_at)).dedup

/-- The grouped assessment trend count for one date: `COUNT(DISTINCT student_id)`. -/
def assessmentTrendCount (db : Db) (sids : List Nat) (startD d : Int) : Nat :=
  (((assessmentTrendRows db sids startD).filter (fun r => r.completed_at == some d)).map
    (fun r => r.student_id)).dedup.length

/-- The activity rows feeding the trend query: submissions of cohort students with a
submission timestamp on or after the window start (no status filter in this query). -/
def activityTrendRows (db : Db) (sids : List Nat) (startD : Int) : List ActivitySubmission :=
  db.submissions.filter (fun sub => sids.contains sub.student_id &&
    (match sub.submitted_at with
     | some d => decide (startD ≤ d)
     | none => false))

/-- The dates appearing in the grouped activity trend query. -/
def activityTrendDates (db : Db) (sids : List Nat) (startD : Int) : List Int :=
  ((activityTrendRows db sids startD).filterMap (fun sub => sub.submitted_at)).dedup

/-- The grouped activity trend count for one date: `COUNT(submission_id)`, i.e. a
plain row count, not a distinct-student count. -/
def activityTrendCount (db : Db) (sids : List Nat) (startD d : Int) : Nat :=
  ((activityTrendRows db sids startD).filter (fun sub => sub.submitted_at == some d)).length

/-- The webinar rows feeding the trend query: `attended = True` attendance rows of
cohort students created on or after the window start. -/
def webinarTrendRows (db : Db) (sids : List Nat) (startD : Int) : List StudentWebinarAttendance :=
  db.attendances.filter (fun a => sids.contains a.student_id && a.attended &&
    decide (startD ≤ a.created_at))

/-- The dates appearing in the grouped webinar trend query. -/
def webinarTrendDates (db : Db) (sids : List Nat) (startD : Int) : List Int :=
  ((webinarTrendRows db sids startD).map (fun a => a.created_at)).dedup

/-- The grouped webinar trend count for one date: `COUNT(id)`, i.e. a plain row
count, not a distinct-student count. -/
def webinarTrendCount (db : Db) (sids : List Nat) (startD d : Int) : Nat :=
  ((webinarTrendRows db sids startD).filter (fun a => a.created_at == d)).length

/-- The trend percentage written into the map for a grouped row:
`min(100, round(count / total_students * 100, 1))`. -/
def trendPct (count total : Nat) : ℚ :=
  min 100 (round1 ((count : ℚ) / (total : ℚ) * 100))

/-- The assessment update loop of `get_school_trends`: each grouped row whose date is
inside the initialized map overwrites that day's `assessments` value. -/
def applyAssessmentTrend (db : Db) (sids : List Nat) (startD : Int) (total : Nat)
    (entries : List TrendEntry) : List TrendEntry :=
  entries.map (fun e =>
    if (assessmentTrendDates db sids startD).contains e.date then
      { e with assessments := trendPct (assessmentTrendCount db sids startD e.date) total }
    else e)

/-- The activity update loop of `get_school_trends`. -/
def applyActivityTrend (db : Db) (sids : List Nat) (startD : Int) (total : Nat)
    (entries : List TrendEntry) : List TrendEntry :=
  entries.map (fun e =>
    if (activityTrendDates db sids startD).contains e.date then
      { e with activities := trendPct (activityTrendCount db sids startD e.date) total }
    else e)

/-- The webinar update loop of `get_school_trends`. -/
def applyWebinarTrend (db : Db) (sids : List Nat) (startD : Int) (total : Nat)
    (entries : List TrendEntry) : List TrendEntry :=
  entries.map (fun e =>
    if (webinarTrendDates db sids startD).contains e.date then
      { e with webinars := trendPct (webinarTrendCount db sids startD e.date) total }
    else e)

/-- Shallow embedding of `get_school_trends`: resolve the cohort (empty cohort
returns an empty list), initialize one all-zero entry per calendar day of
`[today - days, today]`, then apply the three grouped event queries.
`total_students = len(student_ids) or 1`. -/
def get_school_trends (db : Db) (school_id : Nat) (teacher_id : Option Nat)
    (today : Int) (days : Nat) : List TrendEntry :=
  let sids := trendStudentIds db school_id teacher_id
  if sids.isEmpty then []
  else
    let startD := today - days
    let total := if sids.length == 0 then 1 else sids.length
    let base : List TrendEntry := (List.range (days + 1)).map
      (fun (i : Nat) =>
        { date := startD + (i : Int), assessments := 0, activities := 0, webinars := 0 })
    applyWebinarTrend db sids startD total
      (applyActivityTrend db sids startD total
        (applyAssessmentTrend db sids startD total base))

/-- The `risk_map` of `get_students_analytics` (lines 490-493): only `low`, `medium`
and `high` are recognized; any other value leaves the query unfiltered. -/
def risk_map_lookup (s : String) : Option RiskLevel :=
  if s == "low" then some RiskLevel.LOW
  else if s == "medium" then some RiskLevel.MEDIUM
  else if s == "high" then some RiskLevel.HIGH
  else none

/-- The filtered base query of `get_students_analytics`: school filter, optional
class filter, optional first/last-name ILIKE search, then the risk filter (applied
only when the lowercased value is a `risk_map` key, otherwise silently skipped). -/
def studentsBaseQuery (db : Db) (school_id : Nat) (class_id : Option Nat)
    (search : Option String) (risk_level : Option String) : List Student :=
  let q := schoolStudents db school_id
  let q := match class_id with
    | some c => q.filter (fun s => s.class_id == some c)
    | none => q
  let q := match search with
    | some pat => q.filter (fun s =>
        ilikeContains s.first_name pat || ilikeContains s.last_name pat)
    | none => q
  match risk_level with
  | some rs =>
    match risk_map_lookup (lowerStr rs) with
    | some lvl => q.filter (fun s => s.risk_level == some lvl)
    | none => q
  | none => q

/-- One element of the `students` array of `get_students_analytics`, restricted to
the claim-relevant fields (streak, app-session and name display fields are not
claim-relevant and are not embedded). -/
structure StudentListEntry where
  student_id : Nat
  class_id : Option Nat
  risk_level : String
  assessments_completed : Nat
  assessments_total : Nat
  activities_completed : Nat
  activities_total : Nat
  webinars_attended : Nat
  webinars_total : Nat
deriving DecidableEq, Repr

/-- Per-student class totals of `get_students_analytics`: `class_assessment_counts`
(count of assessments of the student's class), looked up with a default of 0 when
the student has no class. -/
def studentClassAssessmentTotal (db : Db) (s : Student) : Nat :=
  match s.class_id with
  | some c => (db.assessments.filter (fun a => a.class_id == some c)).length
  | none => 0

/-- Per-student class totals of `get_students_analytics`: `class_activity_counts`
(count of assignment rows of the student's class). -/
def studentClassActivityTotal (db : Db) (s : Student) : Nat :=
  match s.class_id with
  | some c => (db.assignments.filter (fun a => a.class_id == c)).length
  | none => 0

/-- Per-student class totals of `get_students_analytics`: `class_webinar_counts`
(registrations of the school that are school-wide — `class_ids` absent or empty — or
include the student's class). -/
def studentClassWebinarTotal (db : Db) (school_id : Nat) (s : Student) : Nat :=
  match s.class_id with
  | some c => (db.webinar_regs.filter (fun r => r.school_id == school_id)).countP
      (fun r => match r.class_ids with
        | none => true
        | some l => l.isEmpty || l.contains c)
  | none => 0

/-- The per-student loop body of `get_students_analytics` (lines 563-590). -/
def studentListEntry (db : Db) (school_id : Nat) (s : Student) : StudentListEntry :=
  { student_id := s.student_id
    class_id := s.class_id
    risk_level := match s.risk_level with
      | some r => riskValueLower r
      | none => "low"
    assessments_completed := ((db.responses.filter (fun r =>
        r.student_id == s.student_id && r.completed_at.isSome)).map
        (fun r => r.assessment_id)).dedup.length
    assessments_total := studentClassAssessmentTotal db s
    activities_completed := (db.submissions.filter (fun sub =>
        sub.student_id == s.student_id &&
        (sub.status == SubmissionStatus.SUBMITTED ||
         sub.status == SubmissionStatus.VERIFIED))).length
    activities_total := studentClassActivityTotal db s
    webinars_attended := (db.attendances.filter (fun a =>
        a.student_id == s.student_id && a.attended)).length
    webinars_total := studentClassWebinarTotal db school_id s }

/-- The `get_students_analytics` response, restricted to the claim-relevant fields. -/
structure StudentsResp where
  total_students : Nat
  total_pages : Nat
  students : List StudentListEntry
deriving DecidableEq, Repr

/-- Shallow embedding of `get_students_analytics`: filtered base query, independent
total count, `(page-1)*limit`/`limit` slice, per-student entries. -/
def get_students_analytics (db : Db) (school_id : Nat) (class_id : Option Nat)
    (search : Option String) (risk_level : Option String) (page limit : Nat) :
    StudentsResp :=
  let q := studentsBaseQuery db school_id class_id search risk_level
  let total_students := q.length
  let total_pages := (total_students + limit - 1) / limit
  let pageStudents := (q.drop ((page - 1) * limit)).take limit
  { total_students := total_students
    total_pages := total_pages
    students := pageStudents.map (studentListEntry db school_id) }

/-- Python's `SubmissionStatus(value)` enum lookup by value: `PENDING`, `SUBMITTED`,
`VERIFIED`, `REJECTED`, anything else raises `ValueError`. -/
def submission_status_of_value (s : String) : Option SubmissionStatus :=
  if s == "PENDING" then some SubmissionStatus.PENDING
  else if s == "SUBMITTED" then some SubmissionStatus.SUBMITTED
  else if s == "VERIFIED" then some SubmissionStatus.VERIFIED
  else if s == "REJECTED" then some SubmissionStatus.REJECTED
  else none

/-- The `get_student_activity_history` response, restricted to the claim-relevant
fields: the four-bucket status breakdown and the filtered submissions (the
`created_at DESC` presentation ordering and per-row display metadata are not
claim-relevant and are not embedded). -/
structure ActivityHistoryResp where
  total_activities : Nat
  pending : Nat
  submitted : Nat
  verified : Nat
  rejected : Nat
  activities : List ActivitySubmission
deriving DecidableEq, Repr

/-- Shallow embedding of `get_student_activity_history` (lines 681-739): NotFound
guard on the student; full status breakdown; then the filtered list, where an
unrecognized `status` value (after `.upper()`) raises a 400
`Invalid status: {status}` and an optional `days` window filters on `created_at`. -/
def get_student_activity_history (db : Db) (student_id : Nat) (status : Option String)
    (days : Option Nat) (today : Int) : Except ApiError ActivityHistoryResp :=
  match db.students.find? (fun s => s.student_id == student_id) with
  | none => Except.error (ApiError.notFound "Student not found")
  | some _ =>
    let mine := db.submissions.filter (fun sub => sub.student_id == student_id)
    let pending := mine.countP (fun sub => sub.status == SubmissionStatus.PENDING)
    let submitted := mine.countP (fun sub => sub.status == SubmissionStatus.SUBMITTED)
    let verified := mine.countP (fun sub => sub.status == SubmissionStatus.VERIFIED)
    let rejected := mine.countP (fun sub => sub.status == SubmissionStatus.REJECTED)
    let withStatus : Except ApiError (List ActivitySubmission) :=
      match status with
      | none => Except.ok mine
      | some st =>
        match submission_status_of_value (upperStr st) with
        | some stEnum => Except.ok (mine.filter (fun sub => sub.status == stEnum))
        | none => Except.error (ApiError.badRequest ("Invalid status: " ++ st))
    match withStatus with
    | Except.error e => Except.error e
    | Except.ok l =>
      let l := match days with
        | some d => l.filter (fun sub => decide (today - (d : Int) ≤ sub.created_at))
        | none => l
      Except.ok
        { total_activities := pending + submitted + verified + rejected
          pending := pending, submitted := submitted
          verified := verified, rejected := rejected
          activities := l }

/-- Shallow embedding of the activity-completion computation of
`get_student_profile` (lines 1729-1740): NotFound guard on (student, school);
`total` counts assignment rows of the student's current class (`class_id IS NULL`
matches nothing when the student has no class); `done` counts the student's
submissions whose assignment and activity rows both exist; the rate is
`int(done / total * 100)` when `total > 0`, else `100` if `done > 0`, else `0`.
Returns `(total, done, rate)`. -/
def get_student_profile_activity_stats (db : Db) (school_id student_id : Nat) :
    Except ApiError (Nat × Nat × Nat) :=
  match db.students.find? (fun s =>
      s.student_id == student_id && s.school_id == school_id) with
  | none => Except.error (ApiError.notFound "Student not found")
  | some st =>
    let activities_list := db.submissions.filter (fun sub =>
      sub.student_id == student_id &&
      (match db.assignments.find? (fun a => a.assignment_id == sub.assignment_id) with
       | some a => db.activities.any (fun act => act.activity_id == a.activity_id)
       | none => false))
    let total_assignments_count :=
      (db.assignments.filter (fun a => some a.class_id == st.class_id)).length
    let activities_completed_count := activities_list.length
    let rate :=
      if 0 < total_assignments_count then
        activities_completed_count * 100 / total_assignments_count
      else if 0 < activities_completed_count then 100
      else 0
    Except.ok (total_assignments_count, activities_completed_count, rate)

/-- The webinar invited-students query shared by `get_school_webinars` and
`get_webinar_details`: school students, restricted to the registration's class list
when that list is present and non-empty (Python truthiness), then the optional
request-level class / teacher filters (`if class_id: … elif teacher_id: …`). -/
def webinarInvitedQuery (db : Db) (school_id : Nat) (reg : Option WebinarSchoolRegistration)
    (class_id teacher_id : Option Nat) : List Student :=
  let q := schoolStudents db school_id
  let q := match reg with
    | some r =>
      match r.class_ids with
      | some cids =>
        if cids.isEmpty then q
        else q.filter (fun s => match s.class_id with
          | some c => cids.contains c
          | none => false)
      | none => q
    | none => q
  match class_id with
  | some c => q.filter (fun s => s.class_id == some c)
  | none =>
    match teacher_id with
    | some t => q.filter (fun s => studentTaughtBy db s t)
    | none => q

/-- The attendance-side join filters of `get_school_webinars`: the attendance row's
student exists, is in the school, and passes the optional class / teacher filter. -/
def attendanceJoinOk (db : Db) (school_id : Nat) (class_id teacher_id : Option Nat)
    (a : StudentWebinarAttendance) : Bool :=
  db.students.any (fun s => s.student_id == a.student_id && s.school_id == school_id &&
    (match class_id with
     | some c => s.class_id == some c
     | none =>
       match teacher_id with
       | some t => studentTaughtBy db s t
       | none => true))

/-- One element of the `webinars` array of `get_school_webinars`. -/
structure SchoolWebinarEntry where
  webinar_id : Nat
  studentsAttended : Nat
  totalStudentsInvited : Nat
  attendanceRate : ℚ
deriving DecidableEq, Repr

/-- Shallow embedding of `get_school_webinars` (lines 1103-1199): per webinar, the
invited count is the currently-assigned student count; the attended count is the
`attended = True` row count; only when attended exceeds invited is the invited count
raised to `max(invited, distinct students with any attendance row)`. (The
date-descending presentation ordering of the list is not claim-relevant and is not
embedded.) -/
def get_school_webinars (db : Db) (school_id : Nat) (class_id teacher_id : Option Nat)
    (today : Int) (days : Nat) : List SchoolWebinarEntry :=
  let registrations := db.webinar_regs.filter (fun r => r.school_id == school_id)
  if registrations.isEmpty then []
  else
    let webinar_ids := registrations.map (fun r => r.webinar_id)
    let startD := today - days
    let ws := db.webinars.filter (fun w => webinar_ids.contains w.webinar_id &&
      (match w.date with
       | some dt => decide (startD ≤ dt)
       | none => false))
    if ws.isEmpty then []
    else ws.map (fun w =>
      let reg := db.webinar_regs.find? (fun r =>
        r.webinar_id == w.webinar_id && r.school_id == school_id)
      let total_invited0 := (webinarInvitedQuery db school_id reg class_id teacher_id).length
      let attended := (db.attendances.filter (fun a => a.webinar_id == w.webinar_id &&
        a.attended && attendanceJoinOk db school_id class_id teacher_id a)).length
      let total_invited :=
        if total_invited0 < attended then
          let historical := ((db.attendances.filter (fun a =>
              a.webinar_id == w.webinar_id &&
              attendanceJoinOk db school_id class_id teacher_id a)).map
              (fun a => a.student_id)).dedup.length
          max total_invited0 historical
        else total_invited0
      { webinar_id := w.webinar_id
        studentsAttended := attended
        totalStudentsInvited := total_invited
        attendanceRate :=
          if 0 < total_invited then (attended : ℚ) / (total_invited : ℚ) * 100 else 0 })

/-- One element of the attendance list of `get_webinar_details`, restricted to the
claim-relevant fields. -/
structure WebinarAttendanceEntry where
  student_id : Nat
  status : String
  attended : Bool
deriving DecidableEq, Repr

/-- The `get_webinar_details` response, restricted to the claim-relevant fields. -/
structure WebinarDetailsResp where
  totalStudentsInvited : Nat
  studentsAttended : Nat
  studentsAbsent : Nat
  attendance : List WebinarAttendanceEntry
deriving DecidableEq, Repr

/-- Shallow embedding of `get_webinar_details` (lines 1932-2080): NotFound guard on
the webinar; the invited population is the set union of the currently-assigned
student ids (per the school registration) and the ids of students of the school
having any attendance record for the webinar; `totalStudentsInvited` is the size of
that union's student list and `studentsAttended` counts its members whose (last)
attendance record has `attended = True`. -/
def get_webinar_details (db : Db) (webinar_id school_id : Nat) :
    Except ApiError WebinarDetailsResp :=
  match db.webinars.find? (fun w => w.webinar_id == webinar_id) with
  | none => Except.error (ApiError.notFound "Webinar not found")
  | some _ =>
    let registration := db.webinar_regs.find? (fun r =>
      r.webinar_id == webinar_id && r.school_id == school_id)
    let attendance_records := db.attendances.filter (fun a => a.webinar_id == webinar_id &&
      db.students.any (fun s => s.student_id == a.student_id && s.school_id == school_id))
    let attended_student_ids := (attendance_records.map (fun a => a.student_id)).dedup
    let currently_assigned := webinarInvitedQuery db school_id registration none none
    let currently_assigned_ids := (currently_assigned.map (fun s => s.student_id)).dedup
    let all_student_ids := (currently_assigned_ids ++ attended_student_ids).dedup
    let all_students := db.students.filter (fun s => all_student_ids.contains s.student_id)
    let attendance_list := all_students.map (fun s =>
      match (attendance_records.reverse).find? (fun a => a.student_id == s.student_id) with
      | some att =>
        { student_id := s.student_id
          status := if att.attended then "attended" else "absent"
          attended := att.attended }
      | none => { student_id := s.student_id, status := "absent", attended := false })
    Except.ok
      { totalStudentsInvited := attendance_list.length
        studentsAttended := (attendance_list.filter (fun e => e.status == "attended")).length
        studentsAbsent := (attendance_list.filter (fun e => e.status == "absent")).length
        attendance := attendance_list }

/-- Follows the spec's words (§4.3, claim C2), for comparison with the
implementation: the invited denominator of a webinar report is the set union of the
currently-assigned student ids and the ids of students of the school having an
attendance record for that webinar. -/
def spec_invited_union (db : Db) (school_id webinar_id : Nat) : List Nat :=
  let registration := db.webinar_regs.find? (fun r =>
    r.webinar_id == webinar_id && r.school_id == school_id)
  let assigned := ((webinarInvitedQuery db school_id registration none none).map
    (fun s => s.student_id)).dedup
  let everAttended := ((db.attendances.filter (fun a => a.webinar_id == webinar_id &&
    db.students.any (fun s => s.student_id == a.student_id && s.school_id == school_id))).map
    (fun a => a.student_id)).dedup
  (assigned ++ everAttended).dedup

/-- Insertion into a list sorted by the boolean "comes no later than" relation. -/
def insertBy (le : α → α → Bool) (x : α) : List α → List α
  | [] => [x]
  | y :: ys => if le x y then x :: y :: ys else y :: insertBy le x ys

/-- Insertion sort by a boolean "comes no later than" relation (the embedding of the
SQL `ORDER BY`; SQL leaves tie order unspecified, this embedding fixes one). -/
def sortBy (le : α → α → Bool) : List α → List α
  | [] => []
  | x :: xs => insertBy le x (sortBy le xs)

/-- Descending order on nullable SQL aggregates: Postgres `ORDER BY … DESC` places
NULL first. -/
def optScoreGE : Option ℚ → Option ℚ → Bool
  | none, _ => true
  | some _, none => false
  | some x, some y => decide (y ≤ x)

/-- Descending order on counts. -/
def natGE (x y : Nat) : Bool := decide (y ≤ x)

/-- One element of the `students` array of `get_school_leaderboard`, restricted to
the claim-relevant fields. -/
structure LeaderboardEntry where
  student_id : Nat
  score : ℚ
  risk_level : String
deriving DecidableEq, Repr

/-- The `get_school_leaderboard` response: the page of ranked entries and the
unpaginated group count. -/
structure LeaderboardResp where
  students : List LeaderboardEntry
  total : Nat
deriving DecidableEq, Repr

/-- Shallow embedding of `get_school_leaderboard` (lines 2086-2206): empty school
returns an empty page with total 0; otherwise the `type` selects the grouped metric
query (average response score / completed-submission count / attendance count),
`total` is the group count before pagination, and the page is the
`offset`/`limit` slice of the groups sorted descending by the metric; a `type`
matching no branch yields an empty page with total 0. -/
def get_school_leaderboard (db : Db) (school_id : Nat) (ty : String) (today : Int)
    (days : Nat) (page limit : Nat) : LeaderboardResp :=
  let startD := today - days
  let offset := (page - 1) * limit
  let students := schoolStudents db school_id
  let sids := students.map (fun s => s.student_id)
  if sids.isEmpty then { students := [], total := 0 }
  else
    let mkEntry := fun (sidv : Nat) (score : ℚ) =>
      (students.find? (fun s => s.student_id == sidv)).map (fun s =>
        ({ student_id := sidv
           score := score
           risk_level := match s.risk_level with
             | some r => riskValueLower r
             | none => "low" } : LeaderboardEntry))
    if ty == "assessments" then
      let rows := db.responses.filter (fun r => sids.contains r.student_id &&
        (match r.completed_at with
         | some d => decide (startD ≤ d)
         | none => false))
      let groupIds := (rows.map (fun r => r.student_id)).dedup
      let groups := groupIds.map (fun i =>
        let scores := (rows.filter (fun r => r.student_id == i)).filterMap (fun r => r.score)
        (i, if scores.isEmpty then (none : Option ℚ)
            else some (scores.sum / (scores.length : ℚ))))
      let data := ((sortBy (fun a b => optScoreGE a.2 b.2) groups).drop offset).take limit
      { students := data.filterMap (fun g =>
          mkEntry g.1 (match g.2 with
            | some q => round1 q
            | none => 0))
        total := groups.length }
    else if ty == "activities" then
      let rows := db.submissions.filter (fun sub => sids.contains sub.student_id &&
        (sub.status == SubmissionStatus.SUBMITTED ||
         sub.status == SubmissionStatus.VERIFIED) &&
        (match sub.submitted_at with
         | some d => decide (startD ≤ d)
         | none => false))
      let groupIds := (rows.map (fun r => r.student_id)).dedup
      let groups := groupIds.map (fun i => (i, (rows.filter (fun r => r.student_id == i)).length))
      let data := ((sortBy (fun a b => natGE a.2 b.2) groups).drop offset).take limit
      { students := data.filterMap (fun g => mkEntry g.1 (g.2 : ℚ))
        total := groups.length }
    else if ty == "webinars" then
      let rows := db.attendances.filter (fun a => sids.contains a.student_id &&
        a.attended && decide (startD ≤ a.created_at))
      let groupIds := (rows.map (fun r => r.student_id)).dedup
      let groups := groupIds.map (fun i => (i, (rows.filter (fun r => r.student_id == i)).length))
      let data := ((sortBy (fun a b => natGE a.2 b.2) groups).drop offset).take limit
      { students := data.filterMap (fun g => mkEntry g.1 (g.2 : ℚ))
        total := groups.length }
    else { students := [], total := 0 }

section ConcreteEvaluation

attribute [local semireducible] Rat.add Rat.mul Rat.inv Rat.sub

/-! ## Helper lemmas -/

theorem ratRound_eq_round (q : ℚ) : ratRound q = round q := by
  rw [round_eq, ratRound]
  have hq : q + 1 / 2 = ((2 * q.num + q.den : ℤ) : ℚ) / ((2 * q.den : ℕ) : ℚ) := by
    conv_lhs => rw [← Rat.num_div_den q]
    have hden : ((q.den : ℚ)) ≠ 0 := Nat.cast_ne_zero.mpr q.den_nz
    push_cast
    field_simp
    ring
  rw [hq, Rat.floor_intCast_div_natCast]
  push_cast
  ring_nf

theorem round1_nonneg {q : ℚ} (h : 0 ≤ q) : 0 ≤ round1 q := by
  unfold round1
  rw [ratRound_eq_round]
  have hr : (0 : ℤ) ≤ round (10 * q) := by
    rw [round_eq]
    exact Int.floor_nonneg.mpr (by linarith)
  have hcast : (0 : ℚ) ≤ ((round (10 * q) : ℤ) : ℚ) := by exact_mod_cast hr
  linarith

theorem round1_le_100 {q : ℚ} (h : q ≤ 100) : round1 q ≤ 100 := by
  unfold round1
  rw [ratRound_eq_round]
  have h1 : round (10 * q) ≤ round (1000 : ℚ) := by
    rw [round_eq, round_eq]
    exact Int.floor_le_floor (by linarith)
  have h2 : round (1000 : ℚ) = 1000 := by
    have := round_intCast (α := ℚ) 1000
    simpa using this
  have hr : round (10 * q) ≤ (1000 : ℤ) := h2 ▸ h1
  have hcast : ((round (10 * q) : ℤ) : ℚ) ≤ 1000 := by exact_mod_cast hr
  linarith

theorem rate_of_nonneg (done total : Nat) : 0 ≤ rate_of done total := by
  unfold rate_of
  split
  · exact round1_nonneg (by positivity)
  · exact le_refl 0

theorem rate_of_le_100_of_le {done total : Nat} (h : done ≤ total) :
    rate_of done total ≤ 100 := by
  unfold rate_of
  split
  · next hpos =>
    apply round1_le_100
    have htp : (0 : ℚ) < (total : ℚ) := by exact_mod_cast hpos
    have hd : (done : ℚ) ≤ (total : ℚ) := by exact_mod_cast h
    rw [div_mul_eq_mul_div, div_le_iff htp]
    nlinarith
  · norm_num

theorem trendPct_nonneg (count total : Nat) : 0 ≤ trendPct count total := by
  unfold trendPct
  exact le_min (by norm_num) (round1_nonneg (by positivity))

theorem trendPct_le_100 (count total : Nat) : trendPct count total ≤ 100 :=
  min_le_left _ _

theorem ite_trendPct_bounds (c : Prop) [Decidable c] (count total : Nat) :
    0 ≤ (if c then trendPct count total else 0)
      ∧ (if c then trendPct count total else 0) ≤ 100 := by
  split
  · exact ⟨trendPct_nonneg _ _, trendPct_le_100 _ _⟩
  · norm_num

/-! ## Concrete database snapshots used by counterexamples and witnesses -/

/-- A class row shared by several concrete snapshots. -/
def cls0 : SchoolClass := { class_id := 0, school_id := 0, name := "A", grade := "1", teacher_id := none }

/-- Snapshot refuting C1: class 0 of school 0 has one student and no assigned
assessments, but the student has one completed response (to an assessment of
another school), so `assessments.done = 1 > 0 = assessments.total`. -/
def dbC1 : Db :=
  { schools := [0, 1], classes := [cls0], users := []
    students := [{ student_id := 10, school_id := 0, class_id := some 0,
                   risk_level := some RiskLevel.LOW, first_name := "a", last_name := "b" }]
    assessments := [{ assessment_id := 100, school_id := 1, class_id := none }]
    responses := [{ response_id := 1000, assessment_id := 100, student_id := 10,
                    score := none, completed_at := some 0 }]
    assignments := [], submissions := [], activities := [], webinars := []
    webinar_regs := [], attendances := [] }

/-- Snapshot refuting C4: class 0 of school 0 has one student and one assigned
assessment, but the student completed two distinct assessments, so the assessment
rate is 200.0. -/
def dbC4 : Db :=
  { schools := [0], classes := [cls0], users := []
    students := [{ student_id := 10, school_id := 0, class_id := some 0,
                   risk_level := some RiskLevel.LOW, first_name := "a", last_name := "b" }]
    assessments := [{ assessment_id := 100, school_id := 0, class_id := some 0 }]
    responses := [{ response_id := 1000, assessment_id := 100, student_id := 10,
                    score := none, completed_at := some 0 },
                  { response_id := 1001, assessment_id := 101, student_id := 10,
                    score := none, completed_at := some 0 }]
    assignments := [], submissions := [], activities := [], webinars := []
    webinar_regs := [], attendances := [] }

/-- Snapshot with a positive webinar total: one student, one school registration. -/
def dbC1W : Db :=
  { schools := [0], classes := [cls0], users := []
    students := [{ student_id := 10, school_id := 0, class_id := some 0,
                   risk_level := some RiskLevel.LOW, first_name := "a", last_name := "b" }]
    assessments := [], responses := [], assignments := [], submissions := []
    activities := [], webinars := []
    webinar_regs := [{ id := 0, webinar_id := 5, school_id := 0, class_ids := none }]
    attendances := [] }

/-- Snapshot refuting C3: one student of school 0 with a NULL `risk_level`. -/
def dbC3 : Db :=
  { schools := [0], classes := [], users := []
    students := [{ student_id := 10, school_id := 0, class_id := none,
                   risk_level := none, first_name := "a", last_name := "b" }]
    assessments := [], responses := [], assignments := [], submissions := []
    activities := [], webinars := [], webinar_regs := [], attendances := [] }

/-- Snapshot refuting C5: school 0 exists but has no students. -/
def dbT5 : Db :=
  { schools := [0], classes := [], users := [], students := []
    assessments := [], responses := [], assignments := [], submissions := []
    activities := [], webinars := [], webinar_regs := [], attendances := [] }

/-- Snapshot refuting C6: a cohort of three students, one of whom has two activity
submissions on day 5, so the activity trend counts 2 rows out of 3 students
(66.7) instead of 1 distinct student out of 3 (33.3). -/
def dbT6 : Db :=
  { schools := [0], classes := [], users := []
    students := [{ student_id := 1, school_id := 0, class_id := none,
                   risk_level := none, first_name := "a", last_name := "b" },
                 { student_id := 2, school_id := 0, class_id := none,
                   risk_level := none, first_name := "c", last_name := "d" },
                 { student_id := 3, school_id := 0, class_id := none,
                   risk_level := none, first_name := "e", last_name := "f" }]
    assessments := [], responses := []
    assignments := []
    submissions := [{ submission_id := 900, assignment_id := 50, student_id := 1,
                      status := SubmissionStatus.SUBMITTED, submitted_at := some 5, created_at := 5 },
                    { submission_id := 901, assignment_id := 51, student_id := 1,
                      status := SubmissionStatus.SUBMITTED, submitted_at := some 5, created_at := 5 }]
    activities := [], webinars := [], webinar_regs := [], attendances := [] }

/-- The empty data store: no schools at all. -/
def dbEmpty : Db :=
  { schools := [], classes := [], users := [], students := []
    assessments := [], responses := [], assignments := [], submissions := []
    activities := [], webinars := [], webinar_regs := [], attendances := [] }

/-- Snapshot refuting C8: one HIGH-risk student in school 0. -/
def dbC8 : Db :=
  { schools := [0], classes := [], users := []
    students := [{ student_id := 10, school_id := 0, class_id := none,
                   risk_level := some RiskLevel.HIGH, first_name := "x", last_name := "y" }]
    assessments := [], responses := [], assignments := [], submissions := []
    activities := [], webinars := [], webinar_regs := [], attendances := [] }

/-- Snapshot for the C9 witness: the student's class has two assignments, the
student has one submission whose assignment and activity rows exist (rate 50). -/
def dbC9 : Db :=
  { schools := [0], classes := [cls0], users := []
    students := [{ student_id := 10, school_id := 0, class_id := some 0,
                   risk_level := none, first_name := "a", last_name := "b" }]
    assessments := [], responses := []
    assignments := [{ assignment_id := 70, activity_id := 7, class_id := 0 },
                    { assignment_id := 71, activity_id := 8, class_id := 0 }]
    submissions := [{ submission_id := 900, assignment_id := 70, student_id := 10,
                      status := SubmissionStatus.PENDING, submitted_at := none, created_at := 0 }]
    activities := [{ activity_id := 7 }]
    webinars := [], webinar_regs := [], attendances := [] }

/-- Snapshot for the C10 witness: one HIGH and one CRITICAL student in school 0. -/
def dbC10 : Db :=
  { schools := [0], classes := [], users := []
    students := [{ student_id := 10, school_id := 0, class_id := none,
                   risk_level := some RiskLevel.HIGH, first_name := "x", last_name := "y" },
                 { student_id := 11, school_id := 0, class_id := none,
                   risk_level := some RiskLevel.CRITICAL, first_name := "z", last_name := "w" }]
    assessments := [], responses := [], assignments := [], submissions := []
    activities := [], webinars := [], webinar_regs := [], attendances := [] }

/-- Snapshot refuting C2 (and witnessing its amendment): webinar 5 is registered for
school 0 restricted to class 1 (students 10, 11); student 12 of class 2 attended it.
The school webinar list reports 2 invited (not the union's 3); the webinar detail
reports the union. -/
def dbC2 : Db :=
  { schools := [0], classes := [], users := []
    students := [{ student_id := 10, school_id := 0, class_id := some 1,
                   risk_level := none, first_name := "a", last_name := "b" },
                 { student_id := 11, school_id := 0, class_id := some 1,
                   risk_level := none, first_name := "c", last_name := "d" },
                 { student_id := 12, school_id := 0, class_id := some 2,
                   risk_level := none, first_name := "e", last_name := "f" }]
    assessments := [], responses := [], assignments := [], submissions := []
    activities := []
    webinars := [{ webinar_id := 5, date := some 9 }]
    webinar_regs := [{ id := 0, webinar_id := 5, school_id := 0, class_ids := some [1] }]
    attendances := [{ id := 0, student_id := 12, webinar_id := 5, attended := true, created_at := 9 }] }

/-- Decidability of equality of endpoint results, for concrete evaluation. -/
instance {ε α : Type} [DecidableEq ε] [DecidableEq α] : DecidableEq (Except ε α) :=
  fun x y =>
    match x, y with
    | Except.ok a, Except.ok b =>
      if h : a = b then isTrue (by rw [h]) else isFalse (by intro hc; cases hc; exact h rfl)
    | Except.error e, Except.error f =>
      if h : e = f then isTrue (by rw [h]) else isFalse (by intro hc; cases hc; exact h rfl)
    | Except.ok _, Except.error _ => isFalse (by intro hc; cases hc)
    | Except.error _, Except.ok _ => isFalse (by intro hc; cases hc)

/-! ## Membership lemmas for the student list query -/

theorem mem_studentsBaseQuery {db : Db} {school_id : Nat} {class_id : Option Nat}
    {search risk_level : Option String} {s : Student}
    (h : s ∈ studentsBaseQuery db school_id class_id search risk_level) :
    s ∈ db.students := by
  simp only [studentsBaseQuery, schoolStudents] at h
  repeat' split at h
  all_goals
    first
      | exact List.mem_of_mem_filter h
      | exact List.mem_of_mem_filter (List.mem_of_mem_filter h)
      | exact List.mem_of_mem_filter (List.mem_of_mem_filter (List.mem_of_mem_filter h))
      | exact List.mem_of_mem_filter
          (List.mem_of_mem_filter (List.mem_of_mem_filter (List.mem_of_mem_filter h)))

theorem mem_studentsBaseQuery_high {db : Db} {school_id : Nat} {class_id : Option Nat}
    {search : Option String} {s : Student}
    (h : s ∈ studentsBaseQuery db school_id class_id search (some "high")) :
    s.risk_level = some RiskLevel.HIGH := by
  have hm : risk_map_lookup (lowerStr "high") = some RiskLevel.HIGH := rfl
  simp only [studentsBaseQuery, hm] at h
  have := (List.mem_filter.mp h).2
  simpa using this

/-! ## Risk-bucket partition lemmas -/

theorem countP_risk_partition (l : List Student) :
    l.countP (fun s => s.risk_level == some RiskLevel.LOW)
      + l.countP (fun s => s.risk_level == some RiskLevel.MEDIUM)
      + l.countP (fun s => s.risk_level == some RiskLevel.HIGH
          || s.risk_level == some RiskLevel.CRITICAL)
      + l.countP (fun s => s.risk_level == none) = l.length := by
  induction l with
  | nil => simp
  | cons s t ih =>
    simp only [List.countP_cons, List.length_cons]
    rcases hs : s.risk_level with _ | r
    · simp [hs]; omega
    · cases r <;> simp [hs] <;> omega

theorem classRiskStep_sum (d : RiskDistribution) (s : Student) :
    (classRiskStep d s).low + (classRiskStep d s).medium + (classRiskStep d s).high
      = d.low + d.medium + d.high + 1 := by
  rcases hs : s.risk_level with _ | r
  · simp [classRiskStep, hs]; omega
  · cases r <;> simp [classRiskStep, hs, riskValueLower] <;> omega

theorem classRisk_foldl_sum (l : List Student) (d : RiskDistribution) :
    (l.foldl classRiskStep d).low + (l.foldl classRiskStep d).medium
      + (l.foldl classRiskStep d).high = d.low + d.medium + d.high + l.length := by
  induction l generalizing d with
  | nil => simp
  | cons s t ih =>
    rw [List.foldl_cons, ih, classRiskStep_sum]
    simp [List.length_cons]
    omega

/-! ## C9 -/

/-- C9: in the single-student profile, activity completion is the student's
submission count as a percentage of the class's total assignment count, with the
edge-case policy: no assignments and no submissions give 0%, no assignments but at
least one submission give 100%. -/
theorem C9_profile_activity_completion (db : Db) (school_id student_id t d r : Nat)
    (h : get_student_profile_activity_stats db school_id student_id = Except.ok (t, d, r)) :
    (0 < t → r = d * 100 / t) ∧ (t = 0 → d = 0 → r = 0) ∧ (t = 0 → 0 < d → r = 100) := by
  unfold get_student_profile_activity_stats at h
  split at h
  · cases h
  · next st hfind =>
    have h' := Except.ok.inj h
    cases h'
    refine ⟨fun hpos => ?_, fun ht0 hd0 => ?_, fun ht0 hdpos => ?_⟩
    · rw [if_pos hpos]
    · rw [if_neg (by omega), if_neg (by omega)]
    · rw [if_neg (by omega), if_pos hdpos]

/-- Witness for C9 at a concrete snapshot: class with 2 assignments, student with 1
eligible submission, rate 50. -/
theorem C9_witness :
    ((0 < 2 → 50 = 1 * 100 / 2) ∧ (2 = 0 → 1 = 0 → 50 = 0) ∧ (2 = 0 → 0 < 1 → 50 = 100)) :=
  C9_profile_activity_completion dbC9 0 10 2 1 50 (by decide)

/-! ## C10 -/

/-- C10: filtering the paginated student list with `risk_level = "high"` returns
only students whose risk level is exactly HIGH; a CRITICAL student is excluded from
the filtered result even though the overview's risk distribution counts them in the
`high` bucket. -/
theorem C10_high_filter_excludes_critical (db : Db) (school_id : Nat)
    (class_id : Option Nat) (search : Option String) (page limit : Nat) (st : Student)
    (hnd : (db.students.map (fun s => s.student_id)).Nodup)
    (hst : st ∈ db.students) (hcrit : st.risk_level = some RiskLevel.CRITICAL) :
    (∀ e ∈ (get_students_analytics db school_id class_id search (some "high") page limit).students,
        e.risk_level = "high")
    ∧ st.student_id ∉
        ((get_students_analytics db school_id class_id search (some "high") page limit).students.map
          (fun e => e.student_id))
    ∧ (∀ resp, get_school_overview db st.school_id = Except.ok resp →
        0 < resp.risk_distribution.high) := by
  refine ⟨?_, ?_, ?_⟩
  · intro e he
    simp only [get_students_analytics, List.mem_map] at he
    obtain ⟨s, hs, rfl⟩ := he
    have hsq : s ∈ studentsBaseQuery db school_id class_id search (some "high") :=
      List.drop_subset _ _ (List.take_subset _ _ hs)
    have hrisk := mem_studentsBaseQuery_high hsq
    simp [studentListEntry, hrisk, riskValueLower]
  · intro hmem
    simp only [get_students_analytics, List.map_map, List.mem_map] at hmem
    obtain ⟨s, hs, hid⟩ := hmem
    have hsq : s ∈ studentsBaseQuery db school_id class_id search (some "high") :=
      List.drop_subset _ _ (List.take_subset _ _ hs)
    have hrisk := mem_studentsBaseQuery_high hsq
    have hsmem : s ∈ db.students := mem_studentsBaseQuery hsq
    have hinj := List.inj_on_of_nodup_map hnd
    have heq : s = st := hinj hsmem hst (by simpa [studentListEntry] using hid)
    rw [heq, hcrit] at hrisk
    cases hrisk
  · intro resp hresp
    simp only [get_school_overview] at hresp
    split at hresp
    · next hcontains =>
      have hstcoh : st ∈ schoolStudents db st.school_id := by
        simp [schoolStudents, hst]
      split at hresp
      · next hemp =>
        rw [List.isEmpty_iff] at hemp
        rw [hemp] at hstcoh
        cases hstcoh
      · next hemp =>
        have h' := Except.ok.inj hresp
        cases h'
        simp only [overviewRiskDistribution]
        rw [List.countP_pos_iff]
        exact ⟨st, hstcoh, by simp [hcrit]⟩
    · cases hresp

/-- Witness for C10 at a concrete snapshot with one HIGH and one CRITICAL student. -/
theorem C10_witness :
    (∀ e ∈ (get_students_analytics dbC10 0 none none (some "high") 1 20).students,
        e.risk_level = "high")
    ∧ 11 ∉ ((get_students_analytics dbC10 0 none none (some "high") 1 20).students.map
        (fun e => e.student_id))
    ∧ (∀ resp, get_school_overview dbC10 0 = Except.ok resp →
        0 < resp.risk_distribution.high) :=
  C10_high_filter_excludes_critical dbC10 0 none none 1 20
    { student_id := 11, school_id := 0, class_id := none
      risk_level := some RiskLevel.CRITICAL, first_name := "z", last_name := "w" }
    (by decide) (by decide) (by decide)

/-! ## C3 -/

/-- C3 as stated is refuted: in `dbC3` the single student of school 0 has a NULL
`risk_level`; the overview reports the distribution `{0, 0, 0}` for a cohort of
size 1, so the buckets sum to 0, not 1, and the NULL student is not in `low`. -/
theorem C3_counterexample :
    get_school_overview dbC3 0 =
      Except.ok { total_students := 1, total_classes := 0
                  risk_distribution := { low := 0, medium := 0, high := 0 } }
    ∧ 0 + 0 + 0 ≠ 1 := by
  constructor
  · decide
  · decide

/-- C3 amended: in the SQL `SUM(CASE …)` aggregation of the school overview a NULL
`risk_level` is counted in no bucket, so the three buckets plus the NULL count equal
the cohort size; in the Python per-class loop of the single-class endpoint a NULL
`risk_level` does count as `low` and the three buckets sum exactly to the class
size. -/
theorem C3_risk_distribution_sum (db : Db) (school_id class_id : Nat)
    (resp : OverviewSummary) (h : get_school_overview db school_id = Except.ok resp) :
    resp.risk_distribution.low + resp.risk_distribution.medium + resp.risk_distribution.high
        + (schoolStudents db school_id).countP (fun s => s.risk_level == none)
      = resp.total_students
    ∧ (classRiskDistribution db class_id).low + (classRiskDistribution db class_id).medium
        + (classRiskDistribution db class_id).high
      = (classStudents db class_id).length := by
  constructor
  · simp only [get_school_overview] at h
    split at h
    · split at h
      · next hemp =>
        have h' := Except.ok.inj h
        cases h'
        rw [List.isEmpty_iff] at hemp
        simp [hemp]
      · next hemp =>
        have h' := Except.ok.inj h
        cases h'
        simp only [overviewRiskDistribution]
        have := countP_risk_partition (schoolStudents db school_id)
        omega
    · cases h
  · unfold classRiskDistribution
    rw [classRisk_foldl_sum]
    simp

/-- Witness for the amended C3 at a concrete snapshot. -/
theorem C3_witness :
    0 + 0 + 2 + (schoolStudents dbC10 0).countP (fun s => s.risk_level == none) = 2
    ∧ (classRiskDistribution dbC10 0).low + (classRiskDistribution dbC10 0).medium
        + (classRiskDistribution dbC10 0).high
      = (classStudents dbC10 0).length :=
  C3_risk_distribution_sum dbC10 0 0
    { total_students := 2, total_classes := 0
      risk_distribution := { low := 0, medium := 0, high := 2 } } (by decide)

/-! ## C1 -/

/-- C1 as stated is refuted: in `dbC1` the single class entry reports
`assessments.done = 1` against `assessments.total = 0`, because the student's
completed responses are counted regardless of whether the assessment was assigned
to the class. -/
theorem C1_counterexample :
    ((get_classes_analytics dbC1 0 none none none).all
      (fun e => decide (e.assessments.done ≤ e.assessments.total)
        && decide (e.activities.done ≤ e.activities.total)
        && decide (e.webinars.done ≤ e.webinars.total))) = false := by decide

/-- C1 amended: in every per-class analytics entry only the webinar family is
reconciled, and only when its total is positive: `webinars.done ≤ webinars.total`
holds whenever `webinars.total > 0`. The assessment and activity families carry no
reconciliation, and when `webinars.total = 0` the reported `webinars.done` is left
unclamped, so each of those can exceed its total. -/
theorem C1_webinar_done_le_total (db : Db) (school_id : Nat) (teacher_id : Option Nat)
    (search grade : Option String) (e : ClassAnalyticsEntry)
    (he : e ∈ get_classes_analytics db school_id teacher_id search grade)
    (hpos : 0 < e.webinars.total) : e.webinars.done ≤ e.webinars.total := by
  simp only [get_classes_analytics, List.mem_map] at he
  obtain ⟨c, hc, rfl⟩ := he
  simp only [classEntry] at hpos ⊢
  rw [if_pos hpos]
  exact min_le_right _ _

/-- Witness for the amended C1: one registered webinar, one student, so the webinar
total is 1 and the clamped done count is bounded by it. -/
theorem C1_witness :
    (classEntry dbC1W 0 cls0).webinars.done ≤ (classEntry dbC1W 0 cls0).webinars.total :=
  C1_webinar_done_le_total dbC1W 0 none none none _ (by decide) (by decide)

/-! ## Characterization of the trend series -/

/-- For a non-empty cohort, `get_school_trends` is the day-indexed series whose
entry for day `start + i` carries, per metric family, the grouped count's
percentage when that day has event rows and 0 otherwise. -/
theorem get_school_trends_eq (db : Db) (school_id : Nat) (teacher_id : Option Nat)
    (today : Int) (days : Nat) (h : trendStudentIds db school_id teacher_id ≠ []) :
    get_school_trends db school_id teacher_id today days =
      (List.range (days + 1)).map (fun i =>
        { date := today - days + (i : Int)
          assessments :=
            if (assessmentTrendDates db (trendStudentIds db school_id teacher_id)
                  (today - days)).contains (today - days + (i : Int)) then
              trendPct (assessmentTrendCount db (trendStudentIds db school_id teacher_id)
                (today - days) (today - days + (i : Int)))
                (trendStudentIds db school_id teacher_id).length
            else 0
          activities :=
            if (activityTrendDates db (trendStudentIds db school_id teacher_id)
                  (today - days)).contains (today - days + (i : Int)) then
              trendPct (activityTrendCount db (trendStudentIds db school_id teacher_id)
                (today - days) (today - days + (i : Int)))
                (trendStudentIds db school_id teacher_id).length
            else 0
          webinars :=
            if (webinarTrendDates db (trendStudentIds db school_id teacher_id)
                  (today - days)).contains (today - days + (i : Int)) then
              trendPct (webinarTrendCount db (trendStudentIds db school_id teacher_id)
                (today - days) (today - days + (i : Int)))
                (trendStudentIds db school_id teacher_id).length
            else 0 }) := by
  have hcond : ¬ ((trendStudentIds db school_id teacher_id).isEmpty = true) := by
    rw [List.isEmpty_iff]
    exact h
  simp only [get_school_trends, applyAssessmentTrend, applyActivityTrend, applyWebinarTrend]
  rw [if_neg hcond, List.map_map, List.map_map, List.map_map]
  apply List.map_congr_left
  intro i hi
  simp only [Function.comp_apply]
  by_cases h1 : (today - days + (i : Int)) ∈
      assessmentTrendDates db (trendStudentIds db school_id teacher_id) (today - days) <;>
    by_cases h2 : (today - days + (i : Int)) ∈
      activityTrendDates db (trendStudentIds db school_id teacher_id) (today - days) <;>
    by_cases h3 : (today - days + (i : Int)) ∈
      webinarTrendDates db (trendStudentIds db school_id teacher_id) (today - days) <;>
    simp [h1, h2, h3, beq_iff_eq, List.length_eq_zero, h]

/-! ## C4 -/

theorem rate_of_zero_total {done total : Nat} (h : ¬ 0 < total) : rate_of done total = 0 := by
  unfold rate_of
  rw [if_neg h]

/-- C4 as stated is refuted: in `dbC4` the class's assessment completion rate is
200.0 (the student completed two distinct assessments against one assigned), which
lies outside [0, 100]. -/
theorem C4_counterexample :
    (get_classes_analytics dbC4 0 none none none).map (fun e => e.assessments.rate) = [200]
    ∧ ¬ ((200 : ℚ) ≤ 100) := ⟨by decide, by decide⟩

/-- C4 amended: every per-class rate is nonnegative and the per-class webinar rate
and every trend percentage also lie below 100, but the per-class assessment and
activity rates are not clamped from above and can exceed 100. -/
theorem C4_rate_bounds (db : Db) (school_id : Nat) (teacher_id : Option Nat)
    (search grade : Option String) (teacher_id2 : Option Nat) (today : Int) (days : Nat) :
    (∀ e ∈ get_classes_analytics db school_id teacher_id search grade,
        0 ≤ e.assessments.rate ∧ 0 ≤ e.activities.rate
          ∧ 0 ≤ e.webinars.rate ∧ e.webinars.rate ≤ 100)
    ∧ (∀ t ∈ get_school_trends db school_id teacher_id2 today days,
        (0 ≤ t.assessments ∧ t.assessments ≤ 100)
          ∧ (0 ≤ t.activities ∧ t.activities ≤ 100)
          ∧ (0 ≤ t.webinars ∧ t.webinars ≤ 100)) := by
  constructor
  · intro e he
    simp only [get_classes_analytics, List.mem_map] at he
    obtain ⟨c, hc, rfl⟩ := he
    simp only [classEntry]
    refine ⟨rate_of_nonneg _ _, rate_of_nonneg _ _, rate_of_nonneg _ _, ?_⟩
    by_cases hT : 0 < school_webinars_count db school_id * (classStudents db c.class_id).length
    · rw [if_pos hT]
      exact rate_of_le_100_of_le (min_le_right _ _)
    · rw [if_neg hT, rate_of_zero_total hT]
      norm_num
  · intro t ht
    by_cases hne : trendStudentIds db school_id teacher_id2 = []
    · simp [get_school_trends, hne] at ht
    · rw [get_school_trends_eq db school_id teacher_id2 today days hne] at ht
      obtain ⟨i, hi, rfl⟩ := List.mem_map.mp ht
      exact ⟨ite_trendPct_bounds _ _ _, ite_trendPct_bounds _ _ _, ite_trendPct_bounds _ _ _⟩

/-- Witness for the amended C4 at a concrete snapshot. -/
theorem C4_witness :
    0 ≤ (classEntry dbC1W 0 cls0).assessments.rate
      ∧ 0 ≤ (classEntry dbC1W 0 cls0).activities.rate
      ∧ 0 ≤ (classEntry dbC1W 0 cls0).webinars.rate
      ∧ (classEntry dbC1W 0 cls0).webinars.rate ≤ 100 :=
  (C4_rate_bounds dbC1W 0 none none none none 0 3).1 (classEntry dbC1W 0 cls0) (by decide)

/-! ## C5 -/

/-- C5 as stated is refuted: for a school with no students, the trend endpoint
returns an empty list instead of one zero entry per calendar day. -/
theorem C5_counterexample :
    (get_school_trends dbT5 0 none 0 3).length ≠ 3 + 1 := by decide

/-- C5 amended: for a non-empty cohort the trend series has exactly `days + 1`
entries, one per calendar day of `[today - days, today]` in order with no gaps, and
a day with no qualifying events keeps all three percentages at 0; an empty cohort
instead short-circuits to an empty list. -/
theorem C5_trend_series_shape (db : Db) (school_id : Nat) (teacher_id : Option Nat)
    (today : Int) (days : Nat) (h : trendStudentIds db school_id teacher_id ≠ []) :
    (get_school_trends db school_id teacher_id today days).length = days + 1
    ∧ (get_school_trends db school_id teacher_id today days).map (fun e => e.date)
        = (List.range (days + 1)).map (fun (i : Nat) => today - days + (i : Int))
    ∧ ∀ e ∈ get_school_trends db school_id teacher_id today days,
        (e.date ∉ assessmentTrendDates db (trendStudentIds db school_id teacher_id)
              (today - days) → e.assessments = 0)
        ∧ (e.date ∉ activityTrendDates db (trendStudentIds db school_id teacher_id)
              (today - days) → e.activities = 0)
        ∧ (e.date ∉ webinarTrendDates db (trendStudentIds db school_id teacher_id)
              (today - days) → e.webinars = 0) := by
  rw [get_school_trends_eq db school_id teacher_id today days h]
  refine ⟨by simp, by simp, ?_⟩
  intro e he
  obtain ⟨i, hi, rfl⟩ := List.mem_map.mp he
  refine ⟨?_, ?_, ?_⟩ <;> intro hnotin
  · have hcf : ((assessmentTrendDates db (trendStudentIds db school_id teacher_id)
        (today - days)).contains (today - days + (i : Int))) = false := by
      apply Bool.eq_false_iff.mpr
      intro htrue
      exact hnotin (List.mem_of_elem_eq_true htrue)
    have hnc : ¬ ((assessmentTrendDates db (trendStudentIds db school_id teacher_id)
        (today - days)).contains (today - days + (i : Int)) = true) := by
      rw [hcf]
      exact Bool.false_ne_true
    dsimp only
    rw [if_neg hnc]
  · have hcf : ((activityTrendDates db (trendStudentIds db school_id teacher_id)
        (today - days)).contains (today - days + (i : Int))) = false := by
      apply Bool.eq_false_iff.mpr
      intro htrue
      exact hnotin (List.mem_of_elem_eq_true htrue)
    have hnc : ¬ ((activityTrendDates db (trendStudentIds db school_id teacher_id)
        (today - days)).contains (today - days + (i : Int)) = true) := by
      rw [hcf]
      exact Bool.false_ne_true
    dsimp only
    rw [if_neg hnc]
  · have hcf : ((webinarTrendDates db (trendStudentIds db school_id teacher_id)
        (today - days)).contains (today - days + (i : Int))) = false := by
      apply Bool.eq_false_iff.mpr
      intro htrue
      exact hnotin (List.mem_of_elem_eq_true htrue)
    have hnc : ¬ ((webinarTrendDates db (trendStudentIds db school_id teacher_id)
        (today - days)).contains (today - days + (i : Int)) = true) := by
      rw [hcf]
      exact Bool.false_ne_true
    dsimp only
    rw [if_neg hnc]

/-- Witness for the amended C5: a 0-day window over a non-empty cohort yields
exactly one entry. -/
theorem C5_witness : (get_school_trends dbT6 0 none 5 0).length = 0 + 1 :=
  (C5_trend_series_shape dbT6 0 none 5 0 (by decide)).1

/-! ## C6 -/

theorem round1_zero : round1 0 = 0 := by
  have h : ratRound (10 * 0) = 0 := by decide
  rw [round1, h]
  norm_num

theorem trendPct_zero (total : Nat) : trendPct 0 total = 0 := by
  have h0 : ((0 : Nat) : ℚ) / (total : ℚ) * 100 = 0 := by norm_num
  rw [trendPct, h0, round1_zero]
  norm_num

theorem assessmentTrendCount_of_not_mem (db : Db) (sids : List Nat) (startD d : Int)
    (h : d ∉ assessmentTrendDates db sids startD) :
    assessmentTrendCount db sids startD d = 0 := by
  unfold assessmentTrendCount
  have hnil : (assessmentTrendRows db sids startD).filter
      (fun r => r.completed_at == some d) = [] := by
    rw [List.filter_eq_nil_iff]
    intro r hr hbeq
    apply h
    unfold assessmentTrendDates
    rw [List.mem_dedup, List.mem_filterMap]
    exact ⟨r, hr, by simpa using hbeq⟩
  rw [hnil]
  rfl

theorem activityTrendCount_of_not_mem (db : Db) (sids : List Nat) (startD d : Int)
    (h : d ∉ activityTrendDates db sids startD) :
    activityTrendCount db sids startD d = 0 := by
  unfold activityTrendCount
  have hnil : (activityTrendRows db sids startD).filter
      (fun sub => sub.submitted_at == some d) = [] := by
    rw [List.filter_eq_nil_iff]
    intro sub hsub hbeq
    apply h
    unfold activityTrendDates
    rw [List.mem_dedup, List.mem_filterMap]
    exact ⟨sub, hsub, by simpa using hbeq⟩
  rw [hnil]
  rfl

theorem webinarTrendCount_of_not_mem (db : Db) (sids : List Nat) (startD d : Int)
    (h : d ∉ webinarTrendDates db sids startD) :
    webinarTrendCount db sids startD d = 0 := by
  unfold webinarTrendCount
  have hnil : (webinarTrendRows db sids startD).filter
      (fun a => a.created_at == d) = [] := by
    rw [List.filter_eq_nil_iff]
    intro a ha hbeq
    apply h
    unfold webinarTrendDates
    rw [List.mem_dedup, List.mem_map]
    exact ⟨a, ha, by simpa using hbeq⟩
  rw [hnil]
  rfl

/-- Follows the spec's words (claim C6), for comparison with the implementation:
the number of distinct student ids with a qualifying activity submission on one
day. -/
def spec_activity_day_distinct (db : Db) (sids : List Nat) (startD d : Int) : Nat :=
  (((activityTrendRows db sids startD).filter (fun sub => sub.submitted_at == some d)).map
    (fun sub => sub.student_id)).dedup.length

/-- C6 as stated is refuted: in `dbT6` one student of a cohort of three made two
submissions on day 5; the endpoint reports round(2/3*100, 1) = 66.7 for that day,
not the claimed min(100, round(distinct_students/cohort*100, 1)) = 33.3. -/
theorem C6_counterexample :
    (get_school_trends dbT6 0 none 5 0).map (fun e => e.activities) ≠
      [trendPct (spec_activity_day_distinct dbT6 (trendStudentIds dbT6 0 none) 5 5)
        (trendStudentIds dbT6 0 none).length] := by decide

/-- C6 amended: for a non-empty cohort, each day's percentage is
`min(100, round(count / cohort_size * 100, 1))` where `count` is the distinct
student count for assessments but the plain event-row count for activities (one
row per submission) and webinars (one row per attendance record), so a student
with several qualifying events that day is counted several times there. -/
theorem C6_trend_day_formula (db : Db) (school_id : Nat) (teacher_id : Option Nat)
    (today : Int) (days : Nat) (h : trendStudentIds db school_id teacher_id ≠ []) :
    ∀ e ∈ get_school_trends db school_id teacher_id today days,
      e.assessments = trendPct (assessmentTrendCount db (trendStudentIds db school_id teacher_id)
          (today - days) e.date) (trendStudentIds db school_id teacher_id).length
      ∧ e.activities = trendPct (activityTrendCount db (trendStudentIds db school_id teacher_id)
          (today - days) e.date) (trendStudentIds db school_id teacher_id).length
      ∧ e.webinars = trendPct (webinarTrendCount db (trendStudentIds db school_id teacher_id)
          (today - days) e.date) (trendStudentIds db school_id teacher_id).length := by
  rw [get_school_trends_eq db school_id teacher_id today days h]
  intro e he
  obtain ⟨i, hi, rfl⟩ := List.mem_map.mp he
  refine ⟨?_, ?_, ?_⟩ <;> dsimp only
  · by_cases hc : (today - days + (i : Int)) ∈
        assessmentTrendDates db (trendStudentIds db school_id teacher_id) (today - days)
    · rw [if_pos (List.elem_eq_true_of_mem hc)]
    · have hcf : ¬ ((assessmentTrendDates db (trendStudentIds db school_id teacher_id)
          (today - days)).contains (today - days + (i : Int)) = true) := by
        intro htrue
        exact hc (List.mem_of_elem_eq_true htrue)
      rw [if_neg hcf, assessmentTrendCount_of_not_mem db _ _ _ hc, trendPct_zero]
  · by_cases hc : (today - days + (i : Int)) ∈
        activityTrendDates db (trendStudentIds db school_id teacher_id) (today - days)
    · rw [if_pos (List.elem_eq_true_of_mem hc)]
    · have hcf : ¬ ((activityTrendDates db (trendStudentIds db school_id teacher_id)
          (today - days)).contains (today - days + (i : Int)) = true) := by
        intro htrue
        exact hc (List.mem_of_elem_eq_true htrue)
      rw [if_neg hcf, activityTrendCount_of_not_mem db _ _ _ hc, trendPct_zero]
  · by_cases hc : (today - days + (i : Int)) ∈
        webinarTrendDates db (trendStudentIds db school_id teacher_id) (today - days)
    · rw [if_pos (List.elem_eq_true_of_mem hc)]
    · have hcf : ¬ ((webinarTrendDates db (trendStudentIds db school_id teacher_id)
          (today - days)).contains (today - days + (i : Int)) = true) := by
        intro htrue
        exact hc (List.mem_of_elem_eq_true htrue)
      rw [if_neg hcf, webinarTrendCount_of_not_mem db _ _ _ hc, trendPct_zero]

/-- Witness for the amended C6 at the single entry of a 0-day window. -/
theorem C6_witness :
    (({ date := 5, assessments := 0, activities := 667 / 10, webinars := 0 } : TrendEntry).assessments
        = trendPct (assessmentTrendCount dbT6 (trendStudentIds dbT6 0 none) (5 - (0 : Nat)) 5)
            (trendStudentIds dbT6 0 none).length)
    ∧ (({ date := 5, assessments := 0, activities := 667 / 10, webinars := 0 } : TrendEntry).activities
        = trendPct (activityTrendCount dbT6 (trendStudentIds dbT6 0 none) (5 - (0 : Nat)) 5)
            (trendStudentIds dbT6 0 none).length)
    ∧ (({ date := 5, assessments := 0, activities := 667 / 10, webinars := 0 } : TrendEntry).webinars
        = trendPct (webinarTrendCount dbT6 (trendStudentIds dbT6 0 none) (5 - (0 : Nat)) 5)
            (trendStudentIds dbT6 0 none).length) :=
  C6_trend_day_formula dbT6 0 none 5 0 (by decide)
    { date := 5, assessments := 0, activities := 667 / 10, webinars := 0 } (by decide)

/-! ## C7 -/

theorem schoolStudents_eq_nil {db : Db} {school_id : Nat} (hs : school_id ∉ db.schools)
    (hstu : ∀ s ∈ db.students, s.school_id ∈ db.schools) :
    schoolStudents db school_id = [] := by
  unfold schoolStudents
  rw [List.filter_eq_nil_iff]
  intro s hsmem hbeq
  exact hs (eq_of_beq hbeq ▸ hstu s hsmem)

theorem schoolClasses_eq_nil {db : Db} {school_id : Nat} (hs : school_id ∉ db.schools)
    (hcls : ∀ c ∈ db.classes, c.school_id ∈ db.schools) :
    db.classes.filter (fun c => c.school_id == school_id) = [] := by
  rw [List.filter_eq_nil_iff]
  intro c hcmem hbeq
  exact hs (eq_of_beq hbeq ▸ hcls c hcmem)

/-- C7 as stated is refuted: with an empty data store (school 0 does not exist), the
class list, student list, trend and leaderboard endpoints return ordinary empty
results instead of failing with NotFound. -/
theorem C7_counterexample :
    dbEmpty.schools.contains 0 = false
    ∧ get_classes_analytics_resp dbEmpty 0 none none none = { total_classes := 0, classes := [] }
    ∧ get_students_analytics dbEmpty 0 none none none 1 20 =
        { total_students := 0, total_pages := 0, students := [] }
    ∧ get_school_trends dbEmpty 0 none 0 30 = []
    ∧ get_school_leaderboard dbEmpty 0 "assessments" 0 30 1 10 = { students := [], total := 0 } :=
  ⟨by decide, by decide, by decide, by decide, by decide⟩

/-- C7 amended: among the cohort-scoped entry points only the school overview
checks the root scope and fails with NotFound on a missing school; with referential
integrity (every student's and class's school exists), the class list, student
list, trend and leaderboard endpoints return empty results for a missing school
instead of an error. -/
theorem C7_notfound_only_overview (db : Db) (school_id : Nat) (teacher_id : Option Nat)
    (search grade : Option String) (class_id : Option Nat) (search2 risk_level : Option String)
    (page limit : Nat) (teacher_id2 : Option Nat) (today : Int) (days : Nat) (ty : String)
    (hs : school_id ∉ db.schools)
    (hstu : ∀ s ∈ db.students, s.school_id ∈ db.schools)
    (hcls : ∀ c ∈ db.classes, c.school_id ∈ db.schools) :
    get_school_overview db school_id = Except.error (ApiError.notFound "School not found")
    ∧ get_classes_analytics_resp db school_id teacher_id search grade
        = { total_classes := 0, classes := [] }
    ∧ get_students_analytics db school_id class_id search2 risk_level page limit
        = { total_students := 0, total_pages := 0, students := [] }
    ∧ get_school_trends db school_id teacher_id2 today days = []
    ∧ get_school_leaderboard db school_id ty today days page limit
        = { students := [], total := 0 } := by
  have hcontains : db.schools.contains school_id = false := by
    apply Bool.eq_false_iff.mpr
    intro htrue
    exact hs (List.mem_of_elem_eq_true htrue)
  have hstnil : schoolStudents db school_id = [] := schoolStudents_eq_nil hs hstu
  have hclsnil : db.classes.filter (fun c => c.school_id == school_id) = [] :=
    schoolClasses_eq_nil hs hcls
  have hsel : selectClasses db school_id teacher_id search grade = [] := by
    unfold selectClasses
    rw [hclsnil]
    cases teacher_id <;> cases grade <;> cases search <;> simp
  have hq : studentsBaseQuery db school_id class_id search2 risk_level = [] := by
    unfold studentsBaseQuery
    rw [hstnil]
    repeat' split
    all_goals simp
  have hpages : ∀ limit2 : Nat, (limit2 - 1) / limit2 = 0 := by
    intro limit2
    cases limit2 with
    | zero => rfl
    | succ n =>
      apply Nat.div_eq_of_lt
      omega
  have hsids : trendStudentIds db school_id teacher_id2 = [] := by
    unfold trendStudentIds
    cases teacher_id2 <;> simp [hstnil]
  refine ⟨?_, ?_, ?_, ?_, ?_⟩
  · unfold get_school_overview
    rw [hcontains]
    simp
  · simp [get_classes_analytics_resp, get_classes_analytics, hsel]
  · simp [get_students_analytics, hq, hpages]
  · simp [get_school_trends, hsids]
  · simp [get_school_leaderboard, hstnil]

/-- Witness for the amended C7 at the empty data store. -/
theorem C7_witness :
    get_school_overview dbEmpty 0 = Except.error (ApiError.notFound "School not found")
    ∧ get_classes_analytics_resp dbEmpty 0 none none none
        = { total_classes := 0, classes := [] }
    ∧ get_students_analytics dbEmpty 0 none none none 1 10
        = { total_students := 0, total_pages := 0, students := [] }
    ∧ get_school_trends dbEmpty 0 none 0 30 = []
    ∧ get_school_leaderboard dbEmpty 0 "webinars" 0 30 1 10
        = { students := [], total := 0 } :=
  C7_notfound_only_overview dbEmpty 0 none none none none none none 1 10 none 0 30 "webinars"
    (by decide) (by decide) (by decide)

/-! ## C8 -/

/-- C8 as stated is refuted: an unrecognized risk-level filter value is silently
ignored by the student list endpoint, which returns the unfiltered (non-empty)
result rather than an InvalidFilter error. -/
theorem C8_counterexample :
    get_students_analytics dbC8 0 none none (some "banana") 1 20
        = get_students_analytics dbC8 0 none none none 1 20
    ∧ (get_students_analytics dbC8 0 none none (some "banana") 1 20).students ≠ [] :=
  ⟨by decide, by decide⟩

/-- C8 amended: an unrecognized submission-status value does raise an InvalidFilter
(400 `Invalid status: …`) error in the activity-history endpoint, but an
unrecognized risk-level value in the student list is silently dropped: the result
equals the unfiltered one. -/
theorem C8_filter_validation (db : Db) (school_id : Nat) (class_id : Option Nat)
    (search : Option String) (rs st_str : String) (days : Option Nat) (student_id : Nat)
    (today : Int) (page limit : Nat)
    (hrs : risk_map_lookup (lowerStr rs) = none)
    (hstat : submission_status_of_value (upperStr st_str) = none)
    (hstu : (db.students.find? (fun s => s.student_id == student_id)).isSome) :
    get_students_analytics db school_id class_id search (some rs) page limit
        = get_students_analytics db school_id class_id search none page limit
    ∧ get_student_activity_history db student_id (some st_str) days today
        = Except.error (ApiError.badRequest ("Invalid status: " ++ st_str)) := by
  constructor
  · simp [get_students_analytics, studentsBaseQuery, hrs]
  · rcases hf : db.students.find? (fun s => s.student_id == student_id) with _ | st
    · rw [hf] at hstu
      simp at hstu
    · simp [get_student_activity_history, hf, hstat]

/-- Witness for the amended C8 at a concrete snapshot. -/
theorem C8_witness :
    get_students_analytics dbC8 0 none none (some "purple") 1 20
        = get_students_analytics dbC8 0 none none none 1 20
    ∧ get_student_activity_history dbC8 10 (some "weird") none 0
        = Except.error (ApiError.badRequest ("Invalid status: " ++ "weird")) :=
  C8_filter_validation dbC8 0 none none "purple" "weird" none 10 0 1 20
    (by decide) (by decide) (by decide)

/-! ## C2 -/

theorem mem_webinarInvitedQuery {db : Db} {school_id : Nat}
    {reg : Option WebinarSchoolRegistration} {class_id teacher_id : Option Nat} {s : Student}
    (h : s ∈ webinarInvitedQuery db school_id reg class_id teacher_id) : s ∈ db.students := by
  simp only [webinarInvitedQuery, schoolStudents] at h
  repeat' split at h
  all_goals
    first
      | exact List.mem_of_mem_filter h
      | exact List.mem_of_mem_filter (List.mem_of_mem_filter h)
      | exact List.mem_of_mem_filter (List.mem_of_mem_filter (List.mem_of_mem_filter h))

/-- Counting the rows whose id lies in a duplicate-free id list which is covered by
the rows: the filtered row count equals the id count. -/
theorem length_filter_mem_ids (rows : List Student) (ids : List Nat)
    (hnd_rows : (rows.map (fun s => s.student_id)).Nodup)
    (hnd_ids : ids.Nodup)
    (hsub : ∀ i ∈ ids, ∃ s ∈ rows, s.student_id = i) :
    (rows.filter (fun s => ids.contains s.student_id)).length = ids.length := by
  have h1 : ((rows.filter (fun s => ids.contains s.student_id)).map
      (fun s => s.student_id)).Nodup :=
    hnd_rows.sublist ((List.filter_sublist _).map _)
  have h2 : ∀ x, x ∈ (rows.filter (fun s => ids.contains s.student_id)).map
      (fun s => s.student_id) ↔ x ∈ ids := by
    intro x
    constructor
    · intro hx
      obtain ⟨s, hsf, rfl⟩ := List.mem_map.mp hx
      exact List.mem_of_elem_eq_true (List.mem_filter.mp hsf).2
    · intro hx
      obtain ⟨s, hsmem, hid⟩ := hsub x hx
      refine List.mem_map.mpr ⟨s, List.mem_filter.mpr ⟨hsmem, ?_⟩, hid⟩
      rw [hid]
      exact List.elem_eq_true_of_mem hx
  have hperm := (List.perm_ext_iff_of_nodup h1 hnd_ids).mpr h2
  calc (rows.filter (fun s => ids.contains s.student_id)).length
      = ((rows.filter (fun s => ids.contains s.student_id)).map
          (fun s => s.student_id)).length := (List.length_map _ _).symm
    _ = ids.length := hperm.length_eq

/-- C2 as stated is refuted: in `dbC2` the school webinar list reports
`totalStudentsInvited = 2` (the currently-assigned count) although the set union of
currently-assigned and ever-attended student ids has size 3; the count-max fallback
was not triggered because attended (1) did not exceed assigned (2). -/
theorem C2_counterexample :
    (get_school_webinars dbC2 0 none none 10 30).map (fun e => e.totalStudentsInvited) = [2]
    ∧ (spec_invited_union dbC2 0 5).length = 3 := ⟨by decide, by decide⟩

/-- C2 amended: the union-based invited denominator is used only by the webinar
detail endpoint, where the invited count equals the size of the union of
currently-assigned and ever-attended student ids and attended never exceeds
invited. The school webinar list instead uses the currently-assigned count, raised
to `max(assigned, distinct ever-attended)` only when attended exceeds assigned;
given at most one attendance row per (student, webinar), attended still never
exceeds the reported invited count there. -/
theorem C2_invited_reconciliation (db : Db) (webinar_id school_id : Nat)
    (class_id teacher_id : Option Nat) (today : Int) (days : Nat)
    (resp : WebinarDetailsResp)
    (hok : get_webinar_details db webinar_id school_id = Except.ok resp)
    (hnd : (db.students.map (fun s => s.student_id)).Nodup)
    (hpairs : (db.attendances.map (fun a => (a.student_id, a.webinar_id))).Nodup) :
    resp.studentsAttended ≤ resp.totalStudentsInvited
    ∧ resp.totalStudentsInvited = (spec_invited_union db school_id webinar_id).length
    ∧ ∀ e ∈ get_school_webinars db school_id class_id teacher_id today days,
        e.studentsAttended ≤ e.totalStudentsInvited := by
  refine ⟨?_, ?_, ?_⟩
  · unfold get_webinar_details at hok
    split at hok
    · cases hok
    · have h' := Except.ok.inj hok
      cases h'
      exact List.length_filter_le _ _
  · unfold get_webinar_details at hok
    split at hok
    · cases hok
    · next w hw =>
      have h' := Except.ok.inj hok
      cases h'
      rw [List.length_map]
      unfold spec_invited_union
      apply length_filter_mem_ids _ _ hnd (List.nodup_dedup _)
      intro i hi
      rw [List.mem_dedup, List.mem_append] at hi
      rcases hi with hi | hi
      · rw [List.mem_dedup] at hi
        obtain ⟨s, hsq, rfl⟩ := List.mem_map.mp hi
        exact ⟨s, mem_webinarInvitedQuery hsq, rfl⟩
      · rw [List.mem_dedup] at hi
        obtain ⟨a, haf, rfl⟩ := List.mem_map.mp hi
        have hp := (List.mem_filter.mp haf).2
        rw [Bool.and_eq_true] at hp
        obtain ⟨s, hsmem, hsp⟩ := List.any_eq_true.mp hp.2
        rw [Bool.and_eq_true] at hsp
        exact ⟨s, hsmem, eq_of_beq hsp.1⟩
  · intro e he
    simp only [get_school_webinars] at he
    split at he
    · cases he
    · split at he
      · cases he
      · obtain ⟨w, hw, rfl⟩ := List.mem_map.mp he
        dsimp only
        split
        · next hlt =>
          have hattnd : ((db.attendances.filter (fun a => a.webinar_id == w.webinar_id &&
              a.attended && attendanceJoinOk db school_id class_id teacher_id a)).map
              (fun a => a.student_id)).Nodup := by
            have hrowsnd : (db.attendances.filter (fun a => a.webinar_id == w.webinar_id &&
                a.attended && attendanceJoinOk db school_id class_id teacher_id a)).Nodup :=
              (hpairs.of_map _).sublist (List.filter_sublist _)
            apply List.Nodup.map_on ?_ hrowsnd
            intro x hx y hy hxy
            have hxw : x.webinar_id = w.webinar_id := by
              have := (List.mem_filter.mp hx).2
              rw [Bool.and_eq_true, Bool.and_eq_true] at this
              exact eq_of_beq this.1.1
            have hyw : y.webinar_id = w.webinar_id := by
              have := (List.mem_filter.mp hy).2
              rw [Bool.and_eq_true, Bool.and_eq_true] at this
              exact eq_of_beq this.1.1
            exact List.inj_on_of_nodup_map hpairs
              (List.mem_of_mem_filter hx) (List.mem_of_mem_filter hy)
              (by rw [hxw, hyw, hxy])
          have hsubset : ((db.attendances.filter (fun a => a.webinar_id == w.webinar_id &&
              a.attended && attendanceJoinOk db school_id class_id teacher_id a)).map
                (fun a => a.student_id))
              ⊆ ((db.attendances.filter (fun a => a.webinar_id == w.webinar_id &&
                  attendanceJoinOk db school_id class_id teacher_id a)).map
                (fun a => a.student_id)).dedup := by
            intro x hx
            rw [List.mem_dedup]
            obtain ⟨a, haf, rfl⟩ := List.mem_map.mp hx
            refine List.mem_map.mpr ⟨a, List.mem_filter.mpr ⟨List.mem_of_mem_filter haf, ?_⟩, rfl⟩
            have := (List.mem_filter.mp haf).2
            rw [Bool.and_eq_true, Bool.and_eq_true] at this
            rw [Bool.and_eq_true]
            exact ⟨this.1.1, this.2⟩
          calc (db.attendances.filter (fun a => a.webinar_id == w.webinar_id &&
                a.attended && attendanceJoinOk db school_id class_id teacher_id a)).length
              = ((db.attendances.filter (fun a => a.webinar_id == w.webinar_id &&
                  a.attended && attendanceJoinOk db school_id class_id teacher_id a)).map
                  (fun a => a.student_id)).length := (List.length_map _ _).symm
            _ ≤ (((db.attendances.filter (fun a => a.webinar_id == w.webinar_id &&
                  attendanceJoinOk db school_id class_id teacher_id a)).map
                  (fun a => a.student_id)).dedup).length :=
                (List.subperm_of_subset hattnd hsubset).length_le
            _ ≤ max (webinarInvitedQuery db school_id
                  (db.webinar_regs.find? (fun r =>
                    r.webinar_id == w.webinar_id && r.school_id == school_id))
                  class_id teacher_id).length
                (((db.attendances.filter (fun a => a.webinar_id == w.webinar_id &&
                    attendanceJoinOk db school_id class_id teacher_id a)).map
                  (fun a => a.student_id)).dedup).length := le_max_right _ _
        · next hlt =>
          omega

/-- Witness for the amended C2: the spec's own class-switch scenario in `dbC2`
(students 10 and 11 currently assigned, student 12 attended after moving class). -/
theorem C2_witness :
    ({ totalStudentsInvited := 3, studentsAttended := 1, studentsAbsent := 2
       attendance := [{ student_id := 10, status := "absent", attended := false },
                      { student_id := 11, status := "absent", attended := false },
                      { student_id := 12, status := "attended", attended := true }] }
        : WebinarDetailsResp).studentsAttended
      ≤ ({ totalStudentsInvited := 3, studentsAttended := 1, studentsAbsent := 2
           attendance := [{ student_id := 10, status := "absent", attended := false },
                          { student_id := 11, status := "absent", attended := false },
                          { student_id := 12, status := "attended", attended := true }]
         } : WebinarDetailsResp).totalStudentsInvited
    ∧ ({ totalStudentsInvited := 3, studentsAttended := 1, studentsAbsent := 2
         attendance := [{ student_id := 10, status := "absent", attended := false },
                        { student_id := 11, status := "absent", attended := false },
                        { student_id := 12, status := "attended", attended := true }]
       } : WebinarDetailsResp).totalStudentsInvited
        = (spec_invited_union dbC2 0 5).length
    ∧ ∀ e ∈ get_school_webinars dbC2 0 none none 10 30,
        e.studentsAttended ≤ e.totalStudentsInvited :=
  C2_invited_reconciliation dbC2 5 0 none none 10 30
    { totalStudentsInvited := 3, studentsAttended := 1, studentsAbsent := 2
      attendance := [{ student_id := 10, status := "absent", attended := false },
                     { student_id := 11, status := "absent", attended := false },
                     { student_id := 12, status := "attended", attended := true }] }
    (by decide) (by decide) (by decide)

end ConcreteEvaluation

end B2b
